import Mathlib

/-!
Shallow embedding of the orchestration core of `main.py` (DETR training fork):
class-label resolution, the two wandb box converters, the rate-limited
visualization sampler, the resume-reconciliation block, the bootstrap flag
validation, and the per-epoch effect trace of the training loop.
-/

namespace Detr

/-- Hard-coded class labels (main.py line 27). -/
def wandb_class_labels : List (Int × String) :=
  [(0, "no_object0"), (1, "part"), (2, "no_object2")]

/-- Label resolution shared by both converters: the mapped name when the id is a
key of the fixed table, otherwise the decimal string form of the id
(main.py lines 124-128 and 145-150). -/
def class_label (category_id : Int) : String :=
  match List.lookup category_id wandb_class_labels with
  | some l => l
  | none => toString category_id

/-- The two position encodings appearing in wandb box records: the corner form
produced by the coco ground-truth converter and the center-size form produced by
the pytorch box converter. -/
inductive WandbPosition where
  | corner (minX maxX minY maxY : Rat)
  | center (middle : Rat × Rat) (width height : Rat)
deriving DecidableEq

/-- True exactly on the corner (minX/maxX/minY/maxY) encoding. -/
def WandbPosition.isCorner : WandbPosition → Bool
  | corner _ _ _ _ => true
  | center _ _ _ => false

/-- A wandb bounding-box record as built by main.py: position, class id, caption,
scores mapping and domain tag. -/
structure WandbBBox where
  position : WandbPosition
  class_id : Int
  box_caption : String
  scores : List (String × Rat)
  domain : String
deriving DecidableEq

/-- A coco ground-truth record as read by the converter: absolute pixel box
(x, y, w, h), category id and instance id. -/
structure CocoAnnotation where
  bbox : Rat × Rat × Rat × Rat
  category_id : Int
  id : Int
deriving DecidableEq

/-- Embedding of the ground-truth converter (main.py lines 121-142). The image
size argument is (height, width), indexed as in the source: x coordinates are
divided by index 1 (width) and y coordinates by index 0 (height). -/
def coco_annotation_to_wandb_bbox (ann : CocoAnnotation) (orig_size : Rat × Rat) :
    WandbBBox :=
  let bbox := ann.bbox
  { position := WandbPosition.corner (bbox.1 / orig_size.2)
      ((bbox.1 + bbox.2.2.1) / orig_size.2)
      (bbox.2.1 / orig_size.1)
      ((bbox.2.1 + bbox.2.2.2) / orig_size.1)
    class_id := ann.category_id
    box_caption := toString ann.id ++ " " ++ class_label ann.category_id
    scores := []
    domain := "percentage" }

/-- Two-decimal rendering of a score for the caption suffix (the source formats
the score with two decimal places). -/
def format2 (q : Rat) : String :=
  let cents : Int := Int.floor (q * 100 + 1 / 2)
  let whole := cents / 100
  let frac := (cents % 100).toNat
  toString whole ++ "." ++ (if frac < 10 then "0" else "") ++ toString frac

/-- Embedding of the prediction-style converter (main.py lines 144-172):
center-size position carrying the box coordinates verbatim, caption built from a
string tag, the box index, the resolved label and a score suffix present only
when the score is nonzero, and a scores mapping holding the score. -/
def pytorch_box_to_wandb_bbox (box : Rat × Rat × Rat × Rat) (box_id : Nat)
    (category_id : Int) (pre : String) (score : Rat) : WandbBBox :=
  let category_label := class_label category_id
  let score_caption := if score ≠ 0 then " (" ++ format2 score ++ ")" else ""
  { position := WandbPosition.center (box.1, box.2.1) box.2.2.1 box.2.2.2
    class_id := category_id
    box_caption := pre ++ toString box_id ++ " " ++ category_label ++ score_caption
    scores := [("score", score)]
    domain := "percentage" }

/-- One element of the targets list handed to the sampler: ground-truth boxes,
labels and the image id. -/
structure Target where
  boxes : List (Rat × Rat × Rat × Rat)
  labels : List Int
  image_id : Int
deriving DecidableEq

/-- One element of the results list handed to the sampler: predicted boxes,
labels and confidence scores. -/
structure DetResult where
  boxes : List (Rat × Rat × Rat × Rat)
  labels : List Int
  scores : List Rat
deriving DecidableEq

/-- One image record forwarded to the sink: the image reference plus its
ground-truth and prediction box lists. -/
structure WandbImage where
  image : Nat
  ground_truth : List WandbBBox
  predictions : List WandbBBox
deriving DecidableEq

/-- The ground-truth box list built on a sampled batch (main.py lines 193-197):
zip of boxes with labels, converted by the center-size converter with tag gt and
score 0, indexed from 0. -/
def gt_box_data (target : Target) : List WandbBBox :=
  (target.boxes.zip target.labels).enum.map
    (fun p => pytorch_box_to_wandb_bbox p.2.1 p.1 p.2.2 "gt" 0)

/-- The prediction box list built on a sampled batch (main.py lines 199-203):
zip of boxes with labels and scores, converted by the center-size converter with
tag dt and the score, indexed from 0. -/
def dt_box_data (result : DetResult) : List WandbBBox :=
  ((result.boxes.zip result.labels).zip result.scores).enum.map
    (fun p => pytorch_box_to_wandb_bbox p.2.1.1 p.1 p.2.1.2 "dt" p.2.2)

/-- The mutable state of the sampler (main.py lines 174-177): a batch counter
starting at 0 and the epoch the instance is scoped to. -/
structure WandbEvaluator where
  batch_counter : Nat
  epoch : Nat
deriving DecidableEq

/-- A fresh sampler instance for an epoch (main.py lines 175-177). -/
def WandbEvaluator.init (epoch : Nat) : WandbEvaluator :=
  { batch_counter := 0, epoch := epoch }

/-- Embedding of the send method (main.py lines 179-215). Skipped batches (the
counter not divisible by 50) only increment the counter and return no output; a
sampled batch builds one image record per zipped (image, target, result) triple
and returns them under the key built from the epoch and the counter. The counter
is incremented on both paths. -/
def WandbEvaluator.send (ev : WandbEvaluator) (targets : List Target)
    (results : List DetResult) (images : List Nat) :
    WandbEvaluator × Option (String × List WandbImage) :=
  if ev.batch_counter % 50 ≠ 0 then
    ({ ev with batch_counter := ev.batch_counter + 1 }, none)
  else
    let wandb_images := ((images.zip targets).zip results).map
      (fun p =>
        { image := p.1.1
          ground_truth := gt_box_data p.1.2
          predictions := dt_box_data p.2 })
    let key := "epoch_" ++ toString ev.epoch ++ "_batch_" ++ toString ev.batch_counter
    ({ ev with batch_counter := ev.batch_counter + 1 }, some (key, wandb_images))

/-- One batch of arguments for a send call. -/
abbrev SendBatch : Type := List Target × List DetResult × List Nat

/-- Iterates send over a list of batches, collecting the per-call outputs in
order. -/
def send_all (ev : WandbEvaluator) :
    List SendBatch → WandbEvaluator × List (Option (String × List WandbImage))
  | [] => (ev, [])
  | b :: bs =>
    let step := ev.send b.1 b.2.1 b.2.2
    let rest := send_all step.1 bs
    (rest.1, step.2 :: rest.2)

/-- The subset of the argparse configuration the orchestration core reads, with
the parser defaults (main.py lines 34-119). -/
structure Args where
  lr_drop : Nat
  batch_size : Nat
  epochs : Nat
  start_epoch : Nat
  eval : Bool
  output_dir : String
  frozen_weights : Option String
  masks : Bool
deriving DecidableEq

/-- The parser defaults for the fields the core reads. -/
def argsDefault : Args :=
  { lr_drop := 200, batch_size := 2, epochs := 300, start_epoch := 0
    eval := false, output_dir := "", frozen_weights := none, masks := false }

/-- The training state touched by the resume block: the loaded model weights,
optimizer state, scheduler state (opaque, represented as Nat tokens) and the
start epoch. -/
structure TrainState where
  model : Nat
  optimizer : Nat
  lr_scheduler : Nat
  start_epoch : Nat
deriving DecidableEq

/-- The payload loaded from a resume path: the model entry is always present,
the optimizer, scheduler and epoch entries each may be absent. -/
structure CheckpointFile where
  model : Nat
  optimizer : Option Nat
  lr_scheduler : Option Nat
  epoch : Option Nat
deriving DecidableEq

/-- Embedding of the resume block (main.py lines 288-298): model weights are
always loaded; optimizer state, scheduler state and the start epoch are restored
only when the run is not evaluation-only and the payload carries the optimizer,
scheduler and epoch entries, in which case the start epoch becomes the stored
epoch plus one. -/
def resume (ev : Bool) (st : TrainState) (ckpt : CheckpointFile) : TrainState :=
  let st1 : TrainState := { st with model := ckpt.model }
  if ev then st1
  else
    match ckpt.optimizer, ckpt.lr_scheduler, ckpt.epoch with
    | some o, some s, some e =>
      { st1 with optimizer := o, lr_scheduler := s, start_epoch := e + 1 }
    | _, _, _ => st1

/-- Bootstrap events of main before the training loop, in source order. -/
inductive BootEvent where
  | initDistributed
  | buildModel
  | buildOptimizer
  | buildDatasets
deriving DecidableEq

/-- Embedding of the bootstrap prefix of main (main.py lines 217-258): the
frozen-weights assertion (lines 221-222) fires before the model is built
(line 233); when it passes, the model, optimizer and datasets are built in
source order. -/
def main_bootstrap (args : Args) : Except String (List BootEvent) :=
  if args.frozen_weights.isSome ∧ args.masks = false then
    Except.error "Frozen training is meant for segmentation only"
  else
    Except.ok [BootEvent.initDistributed, BootEvent.buildModel,
      BootEvent.buildOptimizer, BootEvent.buildDatasets]

/-- main.py line 257: the training dataset size. -/
def dataset_train_size (len_train : Nat) : Nat := len_train

/-- main.py line 258: the validation dataset size variable is assigned the
length of the training dataset. -/
def dataset_val_size (len_train : Nat) : Nat := len_train

/-- The num_batches expression of the evaluation-only call (main.py line 302). -/
def eval_only_num_batches (len_train batch_size : Nat) : Nat :=
  dataset_train_size len_train / batch_size

/-- Width-4 zero padding of an epoch number, as the format spec 04 in the
numbered checkpoint file name (main.py line 327). -/
def pad4 (n : Nat) : String :=
  let s := toString n
  if s.length < 4 then String.mk (List.replicate (4 - s.length) (Char.ofNat 48)) ++ s
  else s

/-- The checkpoint paths written in one epoch (main.py lines 324-327): always
the fixed-name latest file, plus the numbered file when the next epoch index is
a multiple of the learning-rate-drop period or of 100. -/
def checkpoint_paths (lr_drop epoch : Nat) : List String :=
  ["checkpoint.pth"] ++
    (if (epoch + 1) % lr_drop = 0 ∨ (epoch + 1) % 100 = 0 then
      ["checkpoint" ++ pad4 epoch ++ ".pth"]
    else [])

/-- A value stored in the checkpoint mapping: an opaque state-dict token, a
number, or the configuration snapshot. -/
inductive PayloadValue where
  | state (s : Nat)
  | nat (n : Nat)
  | config (a : Args)
deriving DecidableEq

/-- The checkpoint mapping written to every checkpoint path (main.py lines
329-335), with its five keys in source order. -/
def checkpoint_payload (model_sd optimizer_sd scheduler_sd : Nat) (epoch : Nat)
    (args : Args) : List (String × PayloadValue) :=
  [("model", PayloadValue.state model_sd),
   ("optimizer", PayloadValue.state optimizer_sd),
   ("lr_scheduler", PayloadValue.state scheduler_sd),
   ("epoch", PayloadValue.nat epoch),
   ("args", PayloadValue.config args)]

/-- A value of the per-epoch log record: a scalar statistic or a number. -/
inductive LogValue where
  | scalar (q : Rat)
  | nat (n : Nat)
deriving DecidableEq

/-- The record built at the end of each epoch (main.py lines 341-343): the test
statistics with keys renamed by the test marker, the epoch index and the
parameter count. The train statistics variable of the source is not merged into
this record. -/
def log_stats (test_stats : List (String × Rat)) (epoch : Nat)
    (n_parameters : Nat) : List (String × LogValue) :=
  test_stats.map (fun kv => ("test_" ++ kv.1, LogValue.scalar kv.2)) ++
    [("epoch", LogValue.nat epoch), ("n_parameters", LogValue.nat n_parameters)]

/-- A payload handed to the master-gated save helper: the evaluation accumulator
or a checkpoint mapping. -/
inductive Payload where
  | evalAccumulator
  | checkpoint (entries : List (String × PayloadValue))
deriving DecidableEq

/-- Observable effects issued by the control loop of main, in order. -/
inductive Effect where
  | trainEpoch (epoch num_batches : Nat)
  | schedulerStep
  | saveOnMaster (path : String) (payload : Payload)
  | evaluate (num_batches : Nat)
  | emitLog (record : List (String × LogValue))
deriving DecidableEq

/-- The externally supplied data the loop consumes: per-epoch statistics from
the external train and evaluation passes, the parameter count, and the opaque
state dicts at each epoch. -/
structure Externals where
  train_stats : Nat → List (String × Rat)
  test_stats : Nat → List (String × Rat)
  n_parameters : Nat
  model_sd : Nat → Nat
  optimizer_sd : Nat → Nat
  scheduler_sd : Nat → Nat

/-- The effect list of one iteration of the training loop (main.py lines
313-344): train pass, scheduler step, checkpoint writes when an output directory
is configured, evaluation pass, and the log record emission. -/
def epoch_trace (args : Args) (ext : Externals) (len_train epoch : Nat) :
    List Effect :=
  [Effect.trainEpoch epoch (dataset_train_size len_train / args.batch_size),
   Effect.schedulerStep] ++
  (if args.output_dir ≠ "" then
    (checkpoint_paths args.lr_drop epoch).map
      (fun p => Effect.saveOnMaster p (Payload.checkpoint
        (checkpoint_payload (ext.model_sd epoch) (ext.optimizer_sd epoch)
          (ext.scheduler_sd epoch) epoch args)))
  else []) ++
  [Effect.evaluate (dataset_val_size len_train / args.batch_size),
   Effect.emitLog (log_stats (ext.test_stats epoch) epoch ext.n_parameters)]

/-- A dynamic failure of the script. -/
inductive RunError where
  | nameError (n : String)
deriving DecidableEq

/-- The effect trace of main after the resume block (main.py lines 300-348).
The evaluation-only branch (lines 300-305) evaluates the expression
WandbEvaluator(epoch) in a scope where no local named epoch was ever assigned,
so the branch raises a name error before the evaluation pass is invoked; the
training branch runs the loop from the start epoch to the configured epoch
bound. -/
def main_trace (args : Args) (ext : Externals) (len_train : Nat) :
    Except RunError (List Effect) :=
  if args.eval then
    Except.error (RunError.nameError "epoch")
  else
    Except.ok ((List.range' args.start_epoch (args.epochs - args.start_epoch)).flatMap
      (epoch_trace args ext len_train))

/-- The checkpoint file names among the save effects of a trace. -/
def checkpoint_writes (tr : List Effect) : List String :=
  tr.filterMap (fun e =>
    match e with
    | Effect.saveOnMaster p (Payload.checkpoint _) => some p
    | _ => none)

/-- Overwrite-or-create semantics of the writes on a directory listing: writing
an existing name leaves the listing unchanged, a new name is appended; nothing
is ever removed. -/
def apply_writes (fs : List String) (paths : List String) : List String :=
  paths.foldl (fun acc p => if p ∈ acc then acc else acc ++ [p]) fs

/-- Concrete externals used to instantiate the loop on witnesses. -/
def extC : Externals :=
  { train_stats := fun _ => [("loss", 1)]
    test_stats := fun _ => [("loss", 2)]
    n_parameters := 5
    model_sd := fun _ => 0
    optimizer_sd := fun _ => 0
    scheduler_sd := fun _ => 0 }

/-- Concrete configuration with an output directory, used on witnesses. -/
def argsOut : Args :=
  { argsDefault with output_dir := "out", epochs := 1 }

/-- Concrete target used on witnesses: one box with label 1. -/
def targetC : Target :=
  { boxes := [(10, 20, 30, 40)], labels := [1], image_id := 7 }

/-- Concrete configuration with frozen weights supplied and masks unset. -/
def argsFW : Args :=
  { argsDefault with frozen_weights := some "w.pth" }

/-- Concrete configuration with frozen weights supplied and masks set. -/
def argsFWM : Args :=
  { argsDefault with frozen_weights := some "w.pth", masks := true }

/-- Concrete result used on witnesses: one box with label 1 and score 3/4. -/
def resultC : DetResult :=
  { boxes := [(1/2, 1/2, 1/4, 1/4)], labels := [1], scores := [3/4] }

/-- C8: the ground-truth conversion maps the absolute pixel box (x, y, w, h)
with image height H and width W to the corner position minX = x/W,
maxX = (x+w)/W, minY = y/H, maxY = (y+h)/H under the domain tag percentage; on
the box (10, 20, 30, 40) of an image of width 200 and height 100 it yields
minX = 1/20, maxX = 1/5, minY = 1/5, maxY = 3/5, the claimed decimal values. -/
theorem gt_conversion_formula (x y w h H W : Rat) (cid i : Int) :
    (coco_annotation_to_wandb_bbox ⟨(x, y, w, h), cid, i⟩ (H, W)).position =
      WandbPosition.corner (x / W) ((x + w) / W) (y / H) ((y + h) / H) ∧
    (coco_annotation_to_wandb_bbox ⟨(x, y, w, h), cid, i⟩ (H, W)).domain =
      "percentage" ∧
    (coco_annotation_to_wandb_bbox ⟨(10, 20, 30, 40), 1, 0⟩ (100, 200)).position =
      WandbPosition.corner (1/20) (1/5) (1/5) (3/5) := by
  refine ⟨rfl, rfl, ?_⟩
  have hpos : (coco_annotation_to_wandb_bbox ⟨(10, 20, 30, 40), 1, 0⟩
      (100, 200)).position =
      WandbPosition.corner (10 / 200) ((10 + 30) / 200) (20 / 100)
        ((20 + 40) / 100) := rfl
  rw [hpos]
  simp only [WandbPosition.corner.injEq]
  norm_num

/-- C1: the resume block restores optimizer and scheduler state and sets the
start epoch to the stored epoch index plus one exactly when the payload carries
optimizer, scheduler and epoch entries and the run is not evaluation-only;
otherwise only the model weights are loaded and the start epoch keeps its
configured value. -/
theorem resume_reconciliation (ev : Bool) (st : TrainState)
    (ckpt : CheckpointFile) :
    (∀ o s e, ckpt.optimizer = some o → ckpt.lr_scheduler = some s →
      ckpt.epoch = some e → ev = false →
      resume ev st ckpt =
        { model := ckpt.model, optimizer := o, lr_scheduler := s,
          start_epoch := e + 1 }) ∧
    (ev = true ∨ ckpt.optimizer = none ∨ ckpt.lr_scheduler = none ∨
        ckpt.epoch = none →
      resume ev st ckpt = { st with model := ckpt.model }) := by
  obtain ⟨m, o, s, e⟩ := ckpt
  cases ev <;> cases o <;> cases s <;> cases e <;>
    exact ⟨by intro o1 s1 e1 ho hs he hev; simp_all [resume],
           by intro hcase; simp_all [resume]⟩

/-- Witness for the resume reconciliation theorem: a full payload restores all
three states and advances the start epoch; the same payload under an
evaluation-only run only replaces the model weights. -/
theorem resume_reconciliation_witness :
    resume false ⟨0, 0, 0, 7⟩ ⟨5, some 1, some 2, some 3⟩ = ⟨5, 1, 2, 4⟩ ∧
    resume true ⟨0, 0, 0, 7⟩ ⟨5, some 1, some 2, some 3⟩ = ⟨5, 0, 0, 7⟩ :=
  ⟨(resume_reconciliation false ⟨0, 0, 0, 7⟩ ⟨5, some 1, some 2, some 3⟩).1
      1 2 3 rfl rfl rfl rfl,
   (resume_reconciliation true ⟨0, 0, 0, 7⟩ ⟨5, some 1, some 2, some 3⟩).2
      (Or.inl rfl)⟩

/-- C9: with frozen weights set and masks unset the bootstrap fails with the
configuration error, so in particular no build step (model included) appears in
any successful trace; with frozen weights unset, or with both flags set, the
validation passes and the build steps run in source order. -/
theorem frozen_weights_validation (args : Args) :
    (args.frozen_weights.isSome ∧ args.masks = false →
      main_bootstrap args =
        Except.error "Frozen training is meant for segmentation only" ∧
      ∀ evs, main_bootstrap args = Except.ok evs →
        BootEvent.buildModel ∉ evs) ∧
    (args.frozen_weights = none ∨ args.masks = true →
      main_bootstrap args = Except.ok [BootEvent.initDistributed,
        BootEvent.buildModel, BootEvent.buildOptimizer,
        BootEvent.buildDatasets]) := by
  constructor
  · intro hc
    have herr : main_bootstrap args =
        Except.error "Frozen training is meant for segmentation only" := by
      simp [main_bootstrap, hc.1, hc.2]
    refine ⟨herr, ?_⟩
    intro evs hok
    rw [herr] at hok
    simp at hok
  · rintro (h | h) <;> simp [main_bootstrap, h]

/-- Witness for the frozen-weights validation theorem: error with frozen
weights alone, success with neither flag and with both. -/
theorem frozen_weights_validation_witness :
    main_bootstrap argsFW =
      Except.error "Frozen training is meant for segmentation only" ∧
    main_bootstrap argsDefault = Except.ok [BootEvent.initDistributed,
      BootEvent.buildModel, BootEvent.buildOptimizer,
      BootEvent.buildDatasets] ∧
    main_bootstrap argsFWM = Except.ok [BootEvent.initDistributed,
      BootEvent.buildModel, BootEvent.buildOptimizer,
      BootEvent.buildDatasets] :=
  ⟨((frozen_weights_validation argsFW).1 ⟨rfl, rfl⟩).1,
   (frozen_weights_validation argsDefault).2 (Or.inl rfl),
   (frozen_weights_validation argsFWM).2 (Or.inr rfl)⟩

/-- C2: an evaluation-only run never reaches the evaluation pass: the branch
evaluates the name epoch, which is never assigned in that scope, so the trace
of a run with the eval flag set is a name error and no effect is produced. -/
theorem eval_only_name_error :
    main_trace { argsDefault with eval := true } extC 10 =
      Except.error (RunError.nameError "epoch") := rfl

/-- C3 counterexample: with train statistics present (key loss, value 1 under
extC) the record emitted at the end of the epoch carries only the renamed test
statistics, the epoch index and the parameter count; no key derived from the
train statistics appears in it. -/
theorem log_record_counterexample :
    (epoch_trace argsOut extC 10 0).getLast? =
      some (Effect.emitLog [("test_loss", LogValue.scalar 2),
        ("epoch", LogValue.nat 0), ("n_parameters", LogValue.nat 5)]) ∧
    extC.train_stats 0 = [("loss", 1)] ∧
    "train_loss" ∉
      (log_stats (extC.test_stats 0) 0 extC.n_parameters).map Prod.fst := by
  refine ⟨by decide, rfl, by decide⟩

/-- C3 amended: each epoch emits exactly one record to the external sink, as
the last effect of the epoch; the record merges the test statistics (keys
renamed with the test marker), the epoch index and the parameter count; the
train statistics are not part of it. -/
theorem log_record (args : Args) (ext : Externals) (len_train epoch : Nat) :
    (epoch_trace args ext len_train epoch).getLast? =
      some (Effect.emitLog
        (log_stats (ext.test_stats epoch) epoch ext.n_parameters)) ∧
    (∀ rec, Effect.emitLog rec ∈ epoch_trace args ext len_train epoch →
      rec = log_stats (ext.test_stats epoch) epoch ext.n_parameters) ∧
    (log_stats (ext.test_stats epoch) epoch ext.n_parameters).map Prod.fst =
      (ext.test_stats epoch).map (fun kv => "test_" ++ kv.1) ++
        ["epoch", "n_parameters"] := by
  refine ⟨?_, ?_, ?_⟩
  · unfold epoch_trace
    rw [List.getLast?_append_cons]
    rfl
  · intro rec h
    by_cases hdir : args.output_dir = "" <;>
      simp [epoch_trace, hdir, List.mem_append] at h <;> simp [h]
  · simp [log_stats]

/-- Witness for the log-record theorem at a concrete epoch. -/
theorem log_record_witness :
    [("test_loss", LogValue.scalar 2), ("epoch", LogValue.nat 0),
      ("n_parameters", LogValue.nat 5)] =
      log_stats (extC.test_stats 0) 0 extC.n_parameters :=
  (log_record argsOut extC 10 0).2.1 _ (by decide)

/-- Every effect of a successful trace of main belongs to the effect list of
some epoch of the loop. -/
theorem mem_main_trace (args : Args) (ext : Externals) (len_train : Nat)
    (tr : List Effect) (e : Effect)
    (htr : main_trace args ext len_train = Except.ok tr) (he : e ∈ tr) :
    ∃ ep, e ∈ epoch_trace args ext len_train ep := by
  by_cases hev : args.eval = true
  · simp [main_trace, hev] at htr
  · unfold main_trace at htr
    rw [if_neg hev] at htr
    simp only [Except.ok.injEq] at htr
    subst htr
    rw [List.mem_flatMap] at he
    obtain ⟨ep, -, hmem⟩ := he
    exact ⟨ep, hmem⟩

/-- C4 amended: every checkpoint mapping written by the training loop holds
exactly the keys model, optimizer, lr_scheduler, epoch and args, in source
order. -/
theorem checkpoint_keys (args : Args) (ext : Externals) (len_train : Nat)
    (tr : List Effect) (htr : main_trace args ext len_train = Except.ok tr)
    (p : String) (pl : List (String × PayloadValue))
    (hmem : Effect.saveOnMaster p (Payload.checkpoint pl) ∈ tr) :
    pl.map Prod.fst =
      ["model", "optimizer", "lr_scheduler", "epoch", "args"] := by
  obtain ⟨ep, hm⟩ := mem_main_trace args ext len_train tr _ htr hmem
  by_cases hdir : args.output_dir = ""
  · simp [epoch_trace, hdir] at hm
  · simp only [epoch_trace, hdir, ne_eq, not_false_iff, if_true,
      List.mem_append, List.mem_cons, List.mem_map, List.not_mem_nil,
      List.mem_singleton] at hm
    rcases hm with ((h | h | h) | ⟨a, -, h⟩) | (h | h | h)
    · exact absurd h (by simp)
    · exact absurd h (by simp)
    · exact absurd h (by simp)
    · injection h with h1 h2
      injection h2 with h2
      subst h2
      rfl
    · exact absurd h (by simp)
    · exact absurd h (by simp)
    · exact absurd h (by simp)

/-- C4 counterexample: the mapping of an actual checkpoint write of the loop
keys the scheduler state as lr_scheduler and the configuration snapshot as
args; the keys scheduler and config named by the claimed file layout are
absent from it. -/
theorem checkpoint_keys_counterexample :
    Effect.saveOnMaster "checkpoint.pth"
        (Payload.checkpoint (checkpoint_payload (extC.model_sd 0)
          (extC.optimizer_sd 0) (extC.scheduler_sd 0) 0 argsOut)) ∈
      epoch_trace argsOut extC 10 0 ∧
    "scheduler" ∉ (checkpoint_payload (extC.model_sd 0) (extC.optimizer_sd 0)
        (extC.scheduler_sd 0) 0 argsOut).map Prod.fst ∧
    "config" ∉ (checkpoint_payload (extC.model_sd 0) (extC.optimizer_sd 0)
        (extC.scheduler_sd 0) 0 argsOut).map Prod.fst :=
  ⟨by decide, by decide, by decide⟩

/-- Witness for the checkpoint-keys theorem on a concrete run. -/
theorem checkpoint_keys_witness :
    (checkpoint_payload (extC.model_sd 0) (extC.optimizer_sd 0)
        (extC.scheduler_sd 0) 0 argsOut).map Prod.fst =
      ["model", "optimizer", "lr_scheduler", "epoch", "args"] :=
  checkpoint_keys argsOut extC 10
    ((List.range' argsOut.start_epoch
      (argsOut.epochs - argsOut.start_epoch)).flatMap
        (epoch_trace argsOut extC 10)) rfl "checkpoint.pth"
    (checkpoint_payload (extC.model_sd 0) (extC.optimizer_sd 0)
      (extC.scheduler_sd 0) 0 argsOut) (by decide)

/-- pad4 always yields at least four characters. -/
theorem pad4_length (n : Nat) : 4 ≤ (pad4 n).length := by
  unfold pad4
  by_cases h : (toString n).length < 4
  · rw [if_pos h, String.length_append, String.length_mk,
      List.length_replicate]
    omega
  · rw [if_neg h]
    omega

/-- The numbered checkpoint file name differs from the latest-file name. -/
theorem numbered_ne_latest (n : Nat) :
    ("checkpoint" ++ pad4 n ++ ".pth") ≠ "checkpoint.pth" := by
  intro h
  have hl := congrArg String.length h
  have h10 : ("checkpoint" : String).length = 10 := rfl
  have hp : ((".pth" : String)).length = 4 := rfl
  have h14 : ("checkpoint.pth" : String).length = 14 := rfl
  rw [String.length_append, String.length_append, h10, hp, h14] at hl
  have h4 := pad4_length n
  omega

/-- Applying writes never removes a name from the directory listing. -/
theorem subset_apply_writes (paths : List String) :
    ∀ fs : List String, fs ⊆ apply_writes fs paths := by
  induction paths with
  | nil => exact fun fs a ha => ha
  | cons p ps ih =>
    intro fs a ha
    have h1 : a ∈ (if p ∈ fs then fs else fs ++ [p]) := by
      split
      · exact ha
      · exact List.mem_append_left _ ha
    exact ih _ h1

/-- The write names collected over an append split into the two parts. -/
theorem checkpoint_writes_append (l1 l2 : List Effect) :
    checkpoint_writes (l1 ++ l2) =
      checkpoint_writes l1 ++ checkpoint_writes l2 :=
  List.filterMap_append l1 l2 _

/-- The write names collected over a block of checkpoint saves are the paths
of the block. -/
theorem checkpoint_writes_map (pl : List (String × PayloadValue))
    (l : List String) :
    checkpoint_writes (l.map (fun p =>
      Effect.saveOnMaster p (Payload.checkpoint pl))) = l := by
  induction l with
  | nil => rfl
  | cons a t ih => simpa [checkpoint_writes, List.filterMap_cons] using ih

/-- C5: with an output directory configured, the checkpoint writes issued by an
epoch of the loop are exactly the fixed-name latest file, always, plus the
numbered file (the epoch number zero-padded to four digits) exactly when the
next epoch index is a multiple of the learning-rate-drop period or of 100;
with lr_drop 200, epochs 99 and 199 produce a numbered file and epoch 150 does
not; applying a write list never removes an existing file. -/
theorem checkpoint_schedule (args : Args) (ext : Externals)
    (len_train epoch : Nat) (hdir : args.output_dir ≠ "")
    (hdrop : 0 < args.lr_drop) :
    checkpoint_writes (epoch_trace args ext len_train epoch) =
      checkpoint_paths args.lr_drop epoch ∧
    "checkpoint.pth" ∈ checkpoint_paths args.lr_drop epoch ∧
    (("checkpoint" ++ pad4 epoch ++ ".pth") ∈
        checkpoint_paths args.lr_drop epoch ↔
      (epoch + 1) % args.lr_drop = 0 ∨ (epoch + 1) % 100 = 0) ∧
    checkpoint_paths 200 99 = ["checkpoint.pth", "checkpoint0099.pth"] ∧
    checkpoint_paths 200 199 = ["checkpoint.pth", "checkpoint0199.pth"] ∧
    checkpoint_paths 200 150 = ["checkpoint.pth"] ∧
    ∀ fs : List String,
      fs ⊆ apply_writes fs (checkpoint_paths args.lr_drop epoch) := by
  refine ⟨?_, by simp [checkpoint_paths], ?_, by decide, by decide, by decide,
    fun fs => subset_apply_writes _ fs⟩
  · unfold epoch_trace
    rw [if_pos hdir, checkpoint_writes_append, checkpoint_writes_append,
      checkpoint_writes_map]
    simp [checkpoint_writes]
  · by_cases hc : (epoch + 1) % args.lr_drop = 0 ∨ (epoch + 1) % 100 = 0
    · simp [checkpoint_paths, hc]
    · simp only [checkpoint_paths, hc, if_false, List.append_nil,
        List.mem_singleton, iff_false]
      exact numbered_ne_latest epoch

/-- Witness for the checkpoint schedule theorem on a concrete epoch. -/
theorem checkpoint_schedule_witness :
    checkpoint_writes (epoch_trace argsOut extC 10 99) =
      checkpoint_paths argsOut.lr_drop 99 :=
  (checkpoint_schedule argsOut extC 10 99 (by decide) (by decide)).1

/-- C10: the evaluation batch count is derived from the training dataset size:
the validation-size variable is assigned the training size, the
evaluation-only num_batches expression divides the training size by the batch
size, and every evaluation effect of a successful trace carries the training
size divided by the batch size, whatever the validation set size is. -/
theorem eval_num_batches (args : Args) (ext : Externals) (len_train : Nat)
    (tr : List Effect) (htr : main_trace args ext len_train = Except.ok tr) :
    dataset_val_size len_train = dataset_train_size len_train ∧
    eval_only_num_batches len_train args.batch_size =
      len_train / args.batch_size ∧
    ∀ n, Effect.evaluate n ∈ tr → n = len_train / args.batch_size := by
  refine ⟨rfl, rfl, ?_⟩
  intro n hn
  obtain ⟨ep, hm⟩ := mem_main_trace args ext len_train tr _ htr hn
  by_cases hdir : args.output_dir = "" <;>
    simp [epoch_trace, hdir, dataset_val_size] at hm <;> exact hm

/-- Witness for the num-batches theorem on a concrete run. -/
theorem eval_num_batches_witness : (5 : Nat) = 10 / argsOut.batch_size :=
  (eval_num_batches argsOut extC 10
    ((List.range' argsOut.start_epoch
      (argsOut.epochs - argsOut.start_epoch)).flatMap
        (epoch_trace argsOut extC 10)) rfl).2.2 5 (by decide)

/-- Every element of a ground-truth box list comes from the zipped boxes and
labels at its index, converted with the center-size converter, the gt tag and
score zero. -/
theorem mem_gt_box_data (t : Target) (b : WandbBBox) (hb : b ∈ gt_box_data t) :
    ∃ k box label, (t.boxes.zip t.labels)[k]? = some (box, label) ∧
      b = pytorch_box_to_wandb_bbox box k label "gt" 0 := by
  simp only [gt_box_data, List.mem_map] at hb
  obtain ⟨⟨i, box, label⟩, hp, rfl⟩ := hb
  exact ⟨i, box, label, List.mk_mem_enum_iff_getElem?.mp hp, rfl⟩

/-- Every element of a prediction box list comes from the zipped boxes, labels
and scores at its index, converted with the center-size converter, the dt tag
and its score. -/
theorem mem_dt_box_data (res : DetResult) (b : WandbBBox)
    (hb : b ∈ dt_box_data res) :
    ∃ k box label score,
      ((res.boxes.zip res.labels).zip res.scores)[k]? =
        some ((box, label), score) ∧
      b = pytorch_box_to_wandb_bbox box k label "dt" score := by
  simp only [dt_box_data, List.mem_map] at hb
  obtain ⟨⟨i, ⟨box, label⟩, score⟩, hp, rfl⟩ := hb
  exact ⟨i, box, label, score, List.mk_mem_enum_iff_getElem?.mp hp, rfl⟩

/-- Ground-truth boxes of a sampled batch are never in the corner encoding. -/
theorem gt_position (t : Target) (b : WandbBBox) (hb : b ∈ gt_box_data t) :
    b.position.isCorner = false := by
  obtain ⟨k, box, label, -, rfl⟩ := mem_gt_box_data t b hb
  rfl

/-- Prediction boxes of a sampled batch are never in the corner encoding. -/
theorem dt_position (res : DetResult) (b : WandbBBox)
    (hb : b ∈ dt_box_data res) : b.position.isCorner = false := by
  obtain ⟨k, box, label, score, -, rfl⟩ := mem_dt_box_data res b hb
  rfl

/-- C6 amended: on a sampled batch both the ground-truth and the prediction
box lists are built with the center-size converter: the output records exist
under the epoch/batch key, none of their boxes carries the corner encoding,
and each box of either list is the center-size conversion of the zipped entry
at its index (tag gt with score zero for ground truth, tag dt with the
confidence for predictions). -/
theorem sampled_batch_conversions (ev : WandbEvaluator)
    (targets : List Target) (results : List DetResult) (images : List Nat)
    (h : ev.batch_counter % 50 = 0) :
    (∃ recs, (ev.send targets results images).2 =
        some ("epoch_" ++ toString ev.epoch ++ "_batch_" ++
          toString ev.batch_counter, recs) ∧
      ∀ r ∈ recs, (∀ b ∈ r.ground_truth, b.position.isCorner = false) ∧
        ∀ b ∈ r.predictions, b.position.isCorner = false) ∧
    (∀ t : Target, ∀ b ∈ gt_box_data t, ∃ k box label,
      (t.boxes.zip t.labels)[k]? = some (box, label) ∧
      b = pytorch_box_to_wandb_bbox box k label "gt" 0) ∧
    (∀ res : DetResult, ∀ b ∈ dt_box_data res, ∃ k box label score,
      ((res.boxes.zip res.labels).zip res.scores)[k]? =
        some ((box, label), score) ∧
      b = pytorch_box_to_wandb_bbox box k label "dt" score) := by
  refine ⟨?_, mem_gt_box_data, mem_dt_box_data⟩
  refine ⟨((images.zip targets).zip results).map
    (fun p => WandbImage.mk p.1.1 (gt_box_data p.1.2) (dt_box_data p.2)),
    ?_, ?_⟩
  · unfold WandbEvaluator.send
    rw [if_neg (by simp [h])]
  · intro r hr
    rw [List.mem_map] at hr
    obtain ⟨⟨⟨img, t⟩, res⟩, -, rfl⟩ := hr
    exact ⟨fun b hb => gt_position t b hb, fun b hb => dt_position res b hb⟩

/-- Witness for the sampled-batch conversion theorem: the first call of a
fresh sampler produces an output. -/
theorem sampled_batch_conversions_witness :
    (((WandbEvaluator.init 0).send [targetC] [resultC] [0]).2).isSome =
      true := by
  obtain ⟨recs, heq, -⟩ := (sampled_batch_conversions (WandbEvaluator.init 0)
    [targetC] [resultC] [0] (by decide)).1
  rw [heq]
  rfl

/-- C6 counterexample: on the first sampled batch of a fresh sampler the
ground-truth box list is not built with the corner (percentage-domain)
conversion: its single box carries the center-size encoding. -/
theorem sampled_gt_not_corner :
    (((WandbEvaluator.init 3).send [targetC] [resultC] [0]).2.map
        (fun p => p.2.map (fun r => r.ground_truth.map
          (fun b => b.position.isCorner)))) = some [[false]] := rfl

/-- A skipped call increments the counter and returns no output. -/
theorem send_skip (ev : WandbEvaluator) (targets : List Target)
    (results : List DetResult) (images : List Nat)
    (h : ev.batch_counter % 50 ≠ 0) :
    ev.send targets results images =
      ({ ev with batch_counter := ev.batch_counter + 1 }, none) := by
  unfold WandbEvaluator.send
  rw [if_pos h]

/-- Every call increments the counter by exactly one. -/
theorem send_counter (ev : WandbEvaluator) (targets : List Target)
    (results : List DetResult) (images : List Nat) :
    ((ev.send targets results images).1).batch_counter =
      ev.batch_counter + 1 := by
  unfold WandbEvaluator.send
  split <;> rfl

/-- A call produces an output exactly when the counter is a multiple of 50. -/
theorem send_isSome (ev : WandbEvaluator) (targets : List Target)
    (results : List DetResult) (images : List Nat) :
    ((ev.send targets results images).2).isSome = true ↔
      ev.batch_counter % 50 = 0 := by
  by_cases h : ev.batch_counter % 50 = 0
  · unfold WandbEvaluator.send
    rw [if_neg (by simp [h])]
    simp [h]
  · rw [send_skip ev targets results images h]
    simp [h]

/-- The counter after a call sequence is the initial counter plus the number
of calls. -/
theorem send_all_counter (bs : List SendBatch) :
    ∀ ev : WandbEvaluator,
      (send_all ev bs).1.batch_counter = ev.batch_counter + bs.length := by
  induction bs with
  | nil => intro ev; simp [send_all]
  | cons b t ih =>
    intro ev
    have hstep := ih (ev.send b.1 b.2.1 b.2.2).1
    rw [send_counter] at hstep
    show (send_all (ev.send b.1 b.2.1 b.2.2).1 t).1.batch_counter = _
    rw [hstep, List.length_cons]
    omega

/-- One output is collected per call. -/
theorem send_all_length (bs : List SendBatch) :
    ∀ ev : WandbEvaluator, (send_all ev bs).2.length = bs.length := by
  induction bs with
  | nil => intro ev; rfl
  | cons b t ih =>
    intro ev
    show ((ev.send b.1 b.2.1 b.2.2).2 ::
      (send_all (ev.send b.1 b.2.1 b.2.2).1 t).2).length = _
    rw [List.length_cons, ih, List.length_cons]

/-- The output of call i of a sequence exists and is nonempty exactly when the
initial counter plus i is a multiple of 50. -/
theorem send_all_get (bs : List SendBatch) :
    ∀ (ev : WandbEvaluator) (i : Nat), i < bs.length →
      ∃ o, (send_all ev bs).2[i]? = some o ∧
        (o.isSome = true ↔ (ev.batch_counter + i) % 50 = 0) := by
  induction bs with
  | nil => intro ev i h; exact absurd h (by simp)
  | cons b t ih =>
    intro ev i h
    cases i with
    | zero =>
      refine ⟨(ev.send b.1 b.2.1 b.2.2).2, ?_, ?_⟩
      · show ((ev.send b.1 b.2.1 b.2.2).2 ::
          (send_all (ev.send b.1 b.2.1 b.2.2).1 t).2)[0]? = _
        rw [List.getElem?_cons_zero]
      · simpa using send_isSome ev b.1 b.2.1 b.2.2
    | succ j =>
      have hj : j < t.length := by
        simp only [List.length_cons] at h
        omega
      obtain ⟨o, h1, h2⟩ := ih (ev.send b.1 b.2.1 b.2.2).1 j hj
      refine ⟨o, ?_, ?_⟩
      · show ((ev.send b.1 b.2.1 b.2.2).2 ::
          (send_all (ev.send b.1 b.2.1 b.2.2).1 t).2)[j + 1]? = some o
        rw [List.getElem?_cons_succ]
        exact h1
      · rw [send_counter] at h2
        rw [show ev.batch_counter + (j + 1) = ev.batch_counter + 1 + j from
          by omega]
        exact h2

/-- C7: on a fresh sampler, skipped calls (counter not a multiple of 50) only
increment the counter and return no output, every call advances the counter by
exactly one so the final counter equals the call count, one output slot is
collected per call, and the call of index i produces an output exactly when i
is a multiple of 50. -/
theorem sampler_cadence (epoch : Nat) (bs : List SendBatch) (i : Nat)
    (h : i < bs.length) :
    (∀ (ev : WandbEvaluator) (targets : List Target)
      (results : List DetResult) (images : List Nat),
      ev.batch_counter % 50 ≠ 0 →
      ev.send targets results images =
        ({ ev with batch_counter := ev.batch_counter + 1 }, none)) ∧
    (∀ (ev : WandbEvaluator) (targets : List Target)
      (results : List DetResult) (images : List Nat),
      ((ev.send targets results images).1).batch_counter =
        ev.batch_counter + 1) ∧
    (send_all (WandbEvaluator.init epoch) bs).1.batch_counter = bs.length ∧
    (send_all (WandbEvaluator.init epoch) bs).2.length = bs.length ∧
    ∃ o, (send_all (WandbEvaluator.init epoch) bs).2[i]? = some o ∧
      (o.isSome = true ↔ i % 50 = 0) := by
  refine ⟨send_skip, send_counter, ?_, send_all_length bs _, ?_⟩
  · rw [send_all_counter]
    simp [WandbEvaluator.init]
  · have hg := send_all_get bs (WandbEvaluator.init epoch) i h
    simpa [WandbEvaluator.init] using hg

/-- Witness for the sampler cadence theorem on a two-call sequence. -/
theorem sampler_cadence_witness :
    (send_all (WandbEvaluator.init 0)
      [([targetC], [resultC], [0]), ([targetC], [resultC], [0])]
      ).1.batch_counter = 2 :=
  (sampler_cadence 0
    [([targetC], [resultC], [0]), ([targetC], [resultC], [0])] 1
    (by decide)).2.2.1

end Detr
